import Mathlib

/-!
Verification of `plugins/modules/nim_resource.py` (ansible-power-aix).

The module builds `lsnim` / `nim` command lines, runs them through
`module.run_command`, and classifies exit code / stderr into a `results`
dictionary (the outcome handed to `module.exit_json` or `module.fail_json`).

Shallow embedding conventions:
* Python strings are `Str := List Char`; `str.strip()` is `pyStrip`,
  `str.split(sep)` is `splitOn`, `str.splitlines()` is `splitlines`
  (restricted to the `\n` line terminator, the only one in our inputs).
* Python dicts are association lists with insertion-order semantics:
  updating an existing key keeps its position (`dictInsert` / `keyInsert`).
* `module.run_command` is an explicit function argument
  `exec : Str → Int × Str × Str` returning (return_code, stdout, stderr);
  each `res_*` model also returns a `Bool` recording whether `exec` was
  invoked.
* `module.fail_json` is modelled by the `failed` flag of `Results`.
-/

namespace NimResource

abbrev Str := List Char

/-- Python `str.strip()`: drop whitespace from both ends. -/
def pyStrip (s : Str) : Str :=
  ((s.dropWhile Char.isWhitespace).reverse.dropWhile Char.isWhitespace).reverse

/-- Python `str.split(c)` for a one-character separator: split on every
occurrence of `c`, keeping empty segments (`"".split(c) = [""]`). -/
def splitOn (c : Char) : Str → List Str
  | [] => [[]]
  | x :: xs =>
    if x = c then [] :: splitOn c xs
    else
      match splitOn c xs with
      | [] => [[x]]
      | y :: ys => (x :: y) :: ys

/-- Python `str.splitlines()` restricted to `\n` terminators: split on `\n`,
with no trailing empty line when the text ends in `\n`, and `[]` on `""`. -/
def splitlines (s : Str) : List Str :=
  if s = [] then []
  else if s.getLast? = some '\n' then (splitOn '\n' s).dropLast
  else splitOn '\n' s

/-- Python `dict[k] = v` on an insertion-ordered association list: an existing
key keeps its position, a new key is appended. -/
def dictInsert (d : List (Str × Str)) (k v : Str) : List (Str × Str) :=
  if d.any (fun p => p.1 = k) then d.map (fun p => if p.1 = k then (p.1, v) else p)
  else d ++ [(k, v)]

/-- Key set of the outer Python dict `info`, insertion-ordered: re-assigning an
existing key keeps its position. -/
def keyInsert (ks : List Str) (k : Str) : List Str :=
  if k ∈ ks then ks else ks ++ [k]

/-- Loop state of `build_dic`: the keys inserted into `info` so far, and the
current content of the single mutable dict `info1`. In the Python source every
`info[...] = info1` stores a reference to the same `info1` object, which is
then cleared in place, so only `info`'s keys and `info1`'s final content
determine the returned value. -/
structure BuildState where
  keys : List Str
  info1 : List (Str × Str)
deriving DecidableEq

/-- One iteration of the `for line in lines` loop of `build_dic`
(nim_resource.py lines 366-376):
`key = (line.split('=')[0]).strip()`; if the split has more than one part,
`info1[key] = (line.split('=')[1]).strip()`; otherwise
`info[key[:-1]] = info1; info1.clear()`. -/
def build_step (st : BuildState) (line : Str) : BuildState :=
  let parts := splitOn '=' line
  let key := pyStrip (parts.headD [])
  if parts.length > 1 then
    { st with info1 := dictInsert st.info1 key (pyStrip (parts.getD 1 [])) }
  else
    { keys := keyInsert st.keys key.dropLast, info1 := [] }

/-- `build_dic(stdout)` (nim_resource.py lines 351-378). Because every value
stored in `info` is the same `info1` object, cleared and refilled in place,
the returned dict maps each recorded key to the final content of `info1`. -/
def build_dic (stdout : Str) : List (Str × List (Str × Str)) :=
  let st := (splitlines stdout).foldl build_step ⟨[], []⟩
  st.keys.map (fun k => (k, st.info1))

/-! ### Helper lemmas about `splitOn`, `pyStrip`, `foldl` -/

theorem splitOn_of_not_mem (c : Char) : ∀ (a : Str), c ∉ a → splitOn c a = [a]
  | [], _ => rfl
  | x :: xs, h => by
    have hx : ¬x = c := by
      intro he; exact h (he ▸ List.mem_cons_self x xs)
    have ih := splitOn_of_not_mem c xs (fun hm => h (List.mem_cons_of_mem x hm))
    simp [splitOn, hx, ih]

theorem splitOn_append_cons (c : Char) :
    ∀ (a b : Str), c ∉ a → splitOn c (a ++ c :: b) = a :: splitOn c b
  | [], b, _ => by simp [splitOn]
  | x :: xs, b, h => by
    have hx : ¬x = c := by
      intro he; exact h (he ▸ List.mem_cons_self x xs)
    have ih := splitOn_append_cons c xs b (fun hm => h (List.mem_cons_of_mem x hm))
    simp [splitOn, hx, ih]

theorem pyStrip_of_all_whitespace :
    ∀ (w : Str), (∀ ch ∈ w, ch.isWhitespace = true) → pyStrip w = [] := by
  intro w hw
  have h1 : w.dropWhile Char.isWhitespace = [] := by
    induction w with
    | nil => rfl
    | cons x xs ih =>
      have hx := hw x (List.mem_cons_self x xs)
      simp [List.dropWhile, hx]
      exact fun ch hc => hw ch (List.mem_cons_of_mem x hc)
  simp [pyStrip, h1]

theorem foldl_append_join {α : Type} (f : α → Str) :
    ∀ (l : List α) (acc : Str),
      l.foldl (fun a x => a ++ f x) acc = acc ++ (l.map f).flatten
  | [], acc => by simp
  | x :: xs, acc => by
    simp [List.foldl_cons, foldl_append_join f xs]

/-! ### The Ansible module model: parameters, results, the three actions -/

/-- A single quote character (codepoint 39), used in the preview messages. -/
def squote : Char := Char.ofNat 39

/-- `module.params` plus `module.check_mode`. A missing (`None`) or empty
string parameter is falsy under Python truthiness. `attributes` is an
insertion-ordered dict. -/
structure ModParams where
  name : Option Str
  object_type : Option Str
  attributes : Option (List (Str × Str))
  check_mode : Bool

/-- Python truthiness of an optional string: `None` and `""` are falsy. -/
def truthy : Option Str → Bool
  | none => false
  | some s => !s.isEmpty

/-- Python `'{0}'.format(x)` where `x` is a string or `None`:
`None` formats as the four characters `None`. -/
def pyFormatOpt : Option Str → Str
  | none => "None".data
  | some s => s

/-- The `results` dictionary. `rc` and the show-specific fields are absent
(`none`) until the code assigns them; `failed` records that
`module.fail_json` was called (aborting the invocation). -/
structure Results where
  changed : Bool
  msg : Str
  stdout : Str
  stderr : Str
  cmd : Option Str
  rc : Option Int
  nim_resources : Option (List (Str × List (Str × Str)))
  nim_resource_found : Option Str
  failed : Bool
deriving DecidableEq

/-- `results` as initialised in `main`
(`dict(changed=False, msg='', stdout='', stderr='')`). -/
def initResults : Results :=
  { changed := false, msg := [], stdout := [], stderr := [], cmd := none,
    rc := none, nim_resources := none, nim_resource_found := none,
    failed := false }

/-- `module.run_command`: command line to (return_code, stdout, stderr). -/
abbrev Exec := Str → Int × Str × Str

/-- Substring search, the effect of `re.search` with the literal patterns
`0042-053` / `0042-081` (no metacharacters). -/
def containsSub (pat s : Str) : Bool :=
  s.tails.any (fun t => pat.isPrefixOf t)

/-- `'Command \'{0}\' preview mode, execution skipped.'.format(cmd)`
(res_show line 217, res_present line 278). -/
def previewMsg (cmd : Str) : Str :=
  "Command ".data ++ [squote] ++ cmd ++ [squote]
    ++ " preview mode, execution skipped.".data

/-- `'Command \'{0}\' in preview mode, execution skipped.'.format(cmd)`
(res_absent line 322 — note the extra `in`). -/
def previewMsgAbsent (cmd : Str) : Str :=
  "Command ".data ++ [squote] ++ cmd ++ [squote]
    ++ " in preview mode, execution skipped.".data

/-- Command built by `res_show` (lines 201-214). -/
def res_show_cmd (p : ModParams) : Str :=
  let cmd := "/usr/sbin/lsnim -l".data
  let cmd := if !truthy p.object_type && !truthy p.name
             then cmd ++ " -c resources".data else cmd
  let cmd := if truthy p.object_type
             then cmd ++ " -t ".data ++ p.object_type.getD [] else cmd
  if truthy p.name then cmd ++ " ".data ++ p.name.getD [] else cmd

/-- One `' -a {0}="{1}" '.format(attr, val)` option (res_present line 271). -/
def mkOpt (av : Str × Str) : Str :=
  " -a ".data ++ av.1 ++ "=\"".data ++ av.2 ++ "\" ".data

/-- Command built by `res_present` (lines 258-275). The attribute options are
accumulated by a fold over the dict in its insertion order. -/
def res_present_cmd (p : ModParams) : Str :=
  let cmd := "/usr/sbin/nim -a server=master -o define ".data
  let cmd := if truthy p.object_type
             then cmd ++ " -t ".data ++ p.object_type.getD [] else cmd
  let cmd := match p.attributes with
             | none => cmd
             | some attrs => cmd ++ attrs.foldl (fun acc av => acc ++ mkOpt av) []
  if truthy p.name then cmd ++ " ".data ++ p.name.getD [] else cmd

/-- Command built by `res_absent` (line 318): the name is interpolated
unconditionally, so a `None` name yields `.../nim -o remove None`. -/
def res_absent_cmd (p : ModParams) : Str :=
  "/usr/sbin/nim -o remove ".data ++ pyFormatOpt p.name

/-- `res_show` (lines 186-244). Returns the updated `results` and whether
`module.run_command` was invoked. -/
def res_show (p : ModParams) (exec : Exec) : Results × Bool :=
  let cmd := res_show_cmd p
  if p.check_mode then
    ({ initResults with msg := previewMsg cmd }, false)
  else
    let r := exec cmd
    let rc := r.1
    let r1 : Results :=
      { initResults with
        stderr := r.2.2, stdout := r.2.1, cmd := some cmd,
        nim_resources := some [], nim_resource_found := some ("0".data) }
    if rc ≠ 0 then
      if containsSub ("0042-053".data) r.2.2 then
        ({ r1 with
           msg := "There is no NIM object resource named ".data
                    ++ pyFormatOpt p.name ++ " ".data }, true)
      else
        ({ r1 with
           msg := "Error trying to display object ".data ++ pyFormatOpt p.name,
           rc := some rc, failed := true }, true)
    else
      ({ r1 with
         nim_resources := some (build_dic r.2.1),
         nim_resource_found := some ("1".data) }, true)

/-- `res_present` (lines 246-303). Returns the updated `results` and whether
`module.run_command` was invoked. -/
def res_present (p : ModParams) (exec : Exec) : Results × Bool :=
  let cmd := res_present_cmd p
  if p.check_mode then
    ({ initResults with msg := previewMsg cmd }, false)
  else
    let r := exec cmd
    let rc := r.1
    let r1 : Results :=
      { initResults with stderr := r.2.2, stdout := r.2.1, cmd := some cmd }
    if rc ≠ 0 then
      if !containsSub ("0042-081".data) r.2.2 then
        ({ r1 with
           rc := some rc,
           msg := "Error trying to define resource ".data
                    ++ pyFormatOpt p.name ++ " ".data,
           failed := true }, true)
      else
        ({ r1 with msg := "Resource already exist".data }, true)
    else
      ({ r1 with
         msg := "Creation of resource ".data ++ pyFormatOpt p.name
                  ++ " was a success".data,
         changed := true }, true)

/-- `res_absent` (lines 305-348). Returns the updated `results` and whether
`module.run_command` was invoked. -/
def res_absent (p : ModParams) (exec : Exec) : Results × Bool :=
  let cmd := res_absent_cmd p
  if p.check_mode then
    ({ initResults with msg := previewMsgAbsent cmd }, false)
  else
    let r := exec cmd
    let rc := r.1
    let r1 : Results :=
      { initResults with stderr := r.2.2, stdout := r.2.1, cmd := some cmd }
    if rc ≠ 0 then
      if containsSub ("0042-053".data) r.2.2 then
        ({ r1 with
           msg := "There is no NIM object resource named ".data
                    ++ pyFormatOpt p.name ++ " ".data }, true)
      else
        ({ r1 with
           msg := "Error trying to remove NIM object ".data
                    ++ pyFormatOpt p.name,
           rc := some rc, failed := true }, true)
    else
      ({ r1 with
         msg := "Resource ".data ++ pyFormatOpt p.name ++ " was removed.".data,
         changed := true }, true)

/-- The `argument_spec` of `main` (lines 383-388): which parameters are
declared `required=True`. Only `action` is; in particular `name` is not,
so a request with no name passes AnsibleModule validation. -/
def argSpecRequired : List (Str × Bool) :=
  [("action".data, true), ("name".data, false),
   ("object_type".data, false), ("attributes".data, false)]

/-! ### Structural lemmas about `build_step` -/

theorem build_step_attr (st : BuildState) (k v : Str)
    (hk : ('=' : Char) ∉ k) (hv : ('=' : Char) ∉ v) :
    build_step st (k ++ '=' :: v) =
      { st with info1 := dictInsert st.info1 (pyStrip k) (pyStrip v) } := by
  unfold build_step
  rw [splitOn_append_cons '=' k v hk, splitOn_of_not_mem '=' v hv]
  rfl

theorem build_step_attr_trunc (st : BuildState) (k v w : Str)
    (hk : ('=' : Char) ∉ k) (hv : ('=' : Char) ∉ v) :
    build_step st (k ++ '=' :: (v ++ '=' :: w)) =
      { st with info1 := dictInsert st.info1 (pyStrip k) (pyStrip v) } := by
  unfold build_step
  rw [splitOn_append_cons '=' k (v ++ '=' :: w) hk,
      splitOn_append_cons '=' v w hv]
  simp

theorem build_step_header (st : BuildState) (line : Str)
    (h : ('=' : Char) ∉ line) :
    build_step st line =
      { keys := keyInsert st.keys (pyStrip line).dropLast, info1 := [] } := by
  unfold build_step
  rw [splitOn_of_not_mem '=' line h]
  rfl

/-! ### Claims about the output parser `build_dic` -/

/-- C1: on the two-record listing, `build_dic` is claimed to return the
catalog `lpp_test ↦ {class, type, location of lpp_test}`,
`spot_test ↦ {class, type of spot_test}`. The code instead returns both
keys (in that order) mapped to the same attribute set — the one accumulated
after the last header — because every catalog entry aliases the single
`info1` dict that is cleared in place at each header line. This theorem
evaluates the code at the failing input. -/
theorem c1_build_dic_two_records :
    build_dic ("lpp_test:\n   class = resources\n   type = lpp_source\n   location = /nim1/x\nspot_test:\n   class = resources\n   type = spot\n").data =
      [("lpp_test".data,
         [("class".data, "resources".data), ("type".data, "spot".data)]),
       ("spot_test".data,
         [("class".data, "resources".data), ("type".data, "spot".data)])] ∧
    build_dic ("lpp_test:\n   class = resources\n   type = lpp_source\n   location = /nim1/x\nspot_test:\n   class = resources\n   type = spot\n").data ≠
      [("lpp_test".data,
         [("class".data, "resources".data), ("type".data, "lpp_source".data),
          ("location".data, "/nim1/x".data)]),
       ("spot_test".data,
         [("class".data, "resources".data), ("type".data, "spot".data)])] := by
  exact ⟨by decide, by decide⟩

/-- C2 counterexample: the claim says a `key = value` line is split on the
first `=` only, so the value keeps any further `=` in full. On
`"h:\na = b=c"` the code records value `"b"` (the segment between the first
and the second `=`), not `"b=c"`. -/
theorem c2_counterexample :
    build_dic ("h:\na = b=c").data = [("h".data, [("a".data, "b".data)])] ∧
    [("h".data, [("a".data, "b".data)])] ≠
      [("h".data, [("a".data, "b=c".data)])] := by
  exact ⟨by decide, by decide⟩

/-- C2 (amended): a `key = value` line is split on every `=`; the key is the
text before the first `=` and the value is the text between the first and
the second `=` (anything after a second `=` is dropped, not kept in full);
both key and value are trimmed of surrounding whitespace before insertion
into the current record's attribute mapping. -/
theorem c2_split_and_trim (st : BuildState) (k v w : Str)
    (hk : ('=' : Char) ∉ k) (hv : ('=' : Char) ∉ v) :
    build_step st (k ++ '=' :: v) =
      { st with info1 := dictInsert st.info1 (pyStrip k) (pyStrip v) } ∧
    build_step st (k ++ '=' :: (v ++ '=' :: w)) =
      { st with info1 := dictInsert st.info1 (pyStrip k) (pyStrip v) } :=
  ⟨build_step_attr st k v hk hv, build_step_attr_trunc st k v w hk hv⟩

theorem c2_split_and_trim_witness :
    (('=' : Char) ∉ (" a ".data) ∧ ('=' : Char) ∉ (" b".data)) ∧
    build_step ⟨[], []⟩ (" a ".data ++ '=' :: (" b".data ++ '=' :: "c".data)) =
      { keys := [], info1 := [("a".data, "b".data)] } :=
  ⟨by decide,
   by
    rw [(c2_split_and_trim ⟨[], []⟩ (" a ".data) (" b".data) ("c".data)
          (by decide) (by decide)).2]
    decide⟩

/-- C9: an attribute line whose value part is blank (`key` then `=` then
only whitespace) is recorded with the empty string as its value rather
than dropped. -/
theorem c9_empty_value_preserved (st : BuildState) (k w : Str)
    (hk : ('=' : Char) ∉ k) (hw : ∀ ch ∈ w, ch.isWhitespace = true) :
    build_step st (k ++ '=' :: w) =
      { st with info1 := dictInsert st.info1 (pyStrip k) [] } := by
  have hw' : ('=' : Char) ∉ w := by
    intro hm
    have := hw '=' hm
    simp [Char.isWhitespace] at this
  rw [build_step_attr st k w hk hw', pyStrip_of_all_whitespace w hw]

theorem c9_empty_value_preserved_witness :
    ((('=' : Char) ∉ ("foo ".data) ∧ ∀ ch ∈ (" ".data), ch.isWhitespace = true)) ∧
    build_step ⟨[], []⟩ ("foo ".data ++ '=' :: " ".data) =
      { keys := [], info1 := [("foo".data, [])] } :=
  ⟨by decide,
   by
    rw [c9_empty_value_preserved ⟨[], []⟩ ("foo ".data) (" ".data)
          (by decide) (by decide)]
    decide⟩

/-- C10 counterexample: the claim says a blank line seals the record
accumulated so far under the empty-string key. On `"a = 1\n\nb = 2"` the
accumulated record at the blank line is `{a ↦ 1}`, but the catalog maps
the empty-string key to `{b ↦ 2}` — the attributes accumulated after the
blank line — because the stored value aliases the single `info1` dict that
the blank line clears. -/
theorem c10_counterexample :
    build_dic ("a = 1\n\nb = 2").data = [(([] : Str), [("b".data, "2".data)])] ∧
    [(([] : Str), [("b".data, "2".data)])] ≠
      [(([] : Str), [("a".data, "1".data)])] := by
  exact ⟨by decide, by decide⟩

/-- C10 (amended): every line containing no `=` is treated as a record
header whose record name is the trimmed line with its final character
unconditionally removed, whether or not that character is a colon; in
particular a blank line adds the empty-string key to the catalog and clears
the attribute accumulator (it does not seal the previously accumulated
attributes: every catalog key ends up mapping to the attributes accumulated
after the last header-like line, as the concrete conjunct illustrates). -/
theorem c10_headerlike_line (st : BuildState) (line : Str)
    (h : ('=' : Char) ∉ line) :
    build_step st line =
      { keys := keyInsert st.keys (pyStrip line).dropLast, info1 := [] } ∧
    build_dic ("a = 1\n\nb = 2").data =
      [(([] : Str), [("b".data, "2".data)])] :=
  ⟨build_step_header st line h, by decide⟩

theorem c10_headerlike_line_witness :
    (('=' : Char) ∉ (" lpp_test: ".data)) ∧
    build_step ⟨[], [("x".data, "y".data)]⟩ (" lpp_test: ".data) =
      { keys := ["lpp_test".data], info1 := [] } :=
  ⟨by decide,
   by
    rw [(c10_headerlike_line ⟨[], [("x".data, "y".data)]⟩ (" lpp_test: ".data)
          (by decide)).1]
    decide⟩

/-! ### Claims about the three actions -/

/-- C3 counterexample: the claim says every action's check-mode message is
exactly `Command '<built command>' preview mode, execution skipped.`; for
the Remove action the code emits `Command '<built command>' in preview
mode, execution skipped.` (an extra `in`), so the claimed message is not
the one produced. -/
theorem c3_counterexample :
    (res_absent ⟨some ("x".data), none, none, true⟩
        (fun _ => (0, [], []))).1.msg ≠
      previewMsg (res_absent_cmd ⟨some ("x".data), none, none, true⟩) := by
  decide

/-- C3 (amended): when the check-mode flag is set, no command is ever run
and the outcome's changed field is false, for every action; Show and Create
report `Command '<built command>' preview mode, execution skipped.`, while
Remove reports `Command '<built command>' in preview mode, execution
skipped.`. -/
theorem c3_preview_short_circuit (p : ModParams) (exec : Exec)
    (h : p.check_mode = true) :
    ((res_show p exec).2 = false ∧ (res_show p exec).1.changed = false ∧
      (res_show p exec).1.msg = previewMsg (res_show_cmd p)) ∧
    ((res_present p exec).2 = false ∧ (res_present p exec).1.changed = false ∧
      (res_present p exec).1.msg = previewMsg (res_present_cmd p)) ∧
    ((res_absent p exec).2 = false ∧ (res_absent p exec).1.changed = false ∧
      (res_absent p exec).1.msg = previewMsgAbsent (res_absent_cmd p)) := by
  simp [res_show, res_present, res_absent, h, initResults]

theorem c3_preview_short_circuit_witness :
    (⟨some ("x".data), none, none, true⟩ : ModParams).check_mode = true ∧
    (((res_show ⟨some ("x".data), none, none, true⟩ (fun _ => (0, [], []))).2 = false ∧
      (res_show ⟨some ("x".data), none, none, true⟩ (fun _ => (0, [], []))).1.changed = false ∧
      (res_show ⟨some ("x".data), none, none, true⟩ (fun _ => (0, [], []))).1.msg =
        previewMsg (res_show_cmd ⟨some ("x".data), none, none, true⟩)) ∧
    ((res_present ⟨some ("x".data), none, none, true⟩ (fun _ => (0, [], []))).2 = false ∧
      (res_present ⟨some ("x".data), none, none, true⟩ (fun _ => (0, [], []))).1.changed = false ∧
      (res_present ⟨some ("x".data), none, none, true⟩ (fun _ => (0, [], []))).1.msg =
        previewMsg (res_present_cmd ⟨some ("x".data), none, none, true⟩)) ∧
    ((res_absent ⟨some ("x".data), none, none, true⟩ (fun _ => (0, [], []))).2 = false ∧
      (res_absent ⟨some ("x".data), none, none, true⟩ (fun _ => (0, [], []))).1.changed = false ∧
      (res_absent ⟨some ("x".data), none, none, true⟩ (fun _ => (0, [], []))).1.msg =
        previewMsgAbsent (res_absent_cmd ⟨some ("x".data), none, none, true⟩))) :=
  ⟨rfl, c3_preview_short_circuit ⟨some ("x".data), none, none, true⟩
          (fun _ => (0, [], [])) rfl⟩

/-- C4: the claim says a Remove request with a missing or empty name is
rejected before any command is constructed or executed. The code does no
such validation: `name` is not declared required in `argument_spec`, and
`res_absent` interpolates a missing name as the literal `None`, builds
`/usr/sbin/nim -o remove None`, invokes the executor with it, and — when
stderr carries no known marker — calls `fail_json` (a fatal runtime
error). This theorem evaluates the code at the failing input. -/
theorem c4_missing_name_reaches_executor :
    ("name".data, false) ∈ argSpecRequired ∧
    (res_absent ⟨none, none, none, false⟩
        (fun _ => (1, [], "unrecognized error".data))).2 = true ∧
    (res_absent ⟨none, none, none, false⟩
        (fun _ => (1, [], "unrecognized error".data))).1.cmd =
      some ("/usr/sbin/nim -o remove None".data) ∧
    (res_absent ⟨none, none, none, false⟩
        (fun _ => (1, [], "unrecognized error".data))).1.failed = true := by
  exact ⟨by decide, by decide, by decide, by decide⟩

/-- C5: for a Create request with a name and a non-empty attribute mapping,
the built command is the define base, then the optional type flag, then one
` -a attr="val" ` option per attribute in exactly the caller-supplied
order (values quoted verbatim), and finally the resource name as the last
positional argument. -/
theorem c5_create_attr_order (p : ModParams) (n : Str)
    (attrs : List (Str × Str)) (hn : p.name = some n) (hn0 : n ≠ [])
    (ha : p.attributes = some attrs) (h0 : attrs ≠ []) :
    res_present_cmd p =
      "/usr/sbin/nim -a server=master -o define ".data
        ++ (if truthy p.object_type
            then " -t ".data ++ p.object_type.getD [] else [])
        ++ (attrs.map mkOpt).flatten ++ " ".data ++ n := by
  have hne : n.isEmpty = false := by
    cases n with
    | nil => exact absurd rfl hn0
    | cons a l => rfl
  unfold res_present_cmd
  rw [ha, hn]
  cases hob : truthy p.object_type <;>
    simp [hob, truthy, hne, foldl_append_join, List.append_assoc]

theorem c5_create_attr_order_witness :
    ("x".data ≠ ([] : Str) ∧
      [("source".data, "/a".data), ("location".data, "/b".data)] ≠
        ([] : List (Str × Str))) ∧
    res_present_cmd
        ⟨some ("x".data), some ("spot".data),
         some [("source".data, "/a".data), ("location".data, "/b".data)],
         false⟩ =
      "/usr/sbin/nim -a server=master -o define ".data
        ++ (if truthy (some ("spot".data))
            then " -t ".data ++ (some ("spot".data)).getD [] else [])
        ++ ([("source".data, "/a".data),
            ("location".data, "/b".data)].map mkOpt).flatten
        ++ " ".data ++ "x".data :=
  ⟨⟨by decide, by decide⟩,
   c5_create_attr_order
     ⟨some ("x".data), some ("spot".data),
      some [("source".data, "/a".data), ("location".data, "/b".data)],
      false⟩
     ("x".data) [("source".data, "/a".data), ("location".data, "/b".data)]
     rfl (by decide) rfl (by decide)⟩

/-- C6: for every action, a non-zero exit code whose stderr does not
contain the action's diagnostic marker (`0042-053` for Show and Remove,
`0042-081` for Create) yields a fatal outcome (`fail_json`) that preserves
the original exit code, whatever the stderr text and the exit code's
value. -/
theorem c6_unknown_stderr_fatal (p : ModParams) (rc : Int) (out err : Str)
    (hcm : p.check_mode = false) (hrc : rc ≠ 0) :
    (containsSub ("0042-053".data) err = false →
      (res_show p (fun _ => (rc, out, err))).1.failed = true ∧
      (res_show p (fun _ => (rc, out, err))).1.rc = some rc) ∧
    (containsSub ("0042-081".data) err = false →
      (res_present p (fun _ => (rc, out, err))).1.failed = true ∧
      (res_present p (fun _ => (rc, out, err))).1.rc = some rc) ∧
    (containsSub ("0042-053".data) err = false →
      (res_absent p (fun _ => (rc, out, err))).1.failed = true ∧
      (res_absent p (fun _ => (rc, out, err))).1.rc = some rc) := by
  refine ⟨fun hm => ?_, fun hm => ?_, fun hm => ?_⟩ <;>
    simp [res_show, res_present, res_absent, hcm, hrc, hm, initResults]

theorem c6_unknown_stderr_fatal_witness :
    ((2 : Int) ≠ 0 ∧
      containsSub ("0042-053".data) ("boom".data) = false ∧
      containsSub ("0042-081".data) ("boom".data) = false) ∧
    ((res_show ⟨some ("x".data), none, none, false⟩
        (fun _ => (2, [], "boom".data))).1.failed = true ∧
      (res_show ⟨some ("x".data), none, none, false⟩
        (fun _ => (2, [], "boom".data))).1.rc = some 2) ∧
    ((res_present ⟨some ("x".data), none, none, false⟩
        (fun _ => (2, [], "boom".data))).1.failed = true ∧
      (res_present ⟨some ("x".data), none, none, false⟩
        (fun _ => (2, [], "boom".data))).1.rc = some 2) ∧
    ((res_absent ⟨some ("x".data), none, none, false⟩
        (fun _ => (2, [], "boom".data))).1.failed = true ∧
      (res_absent ⟨some ("x".data), none, none, false⟩
        (fun _ => (2, [], "boom".data))).1.rc = some 2) :=
  have h := c6_unknown_stderr_fatal ⟨some ("x".data), none, none, false⟩
    2 [] ("boom".data) rfl (by decide)
  ⟨⟨by decide, by decide, by decide⟩,
   h.1 (by decide), h.2.1 (by decide), h.2.2 (by decide)⟩

/-- C7: a Show request whose command exits non-zero with stderr containing
the `0042-053` (object does not exist) marker yields: found flag `'0'`, an
empty catalog, a message naming the missing resource, changed=false, no
`fail_json`, and no `rc` field. -/
theorem c7_show_not_found (p : ModParams) (n : Str) (rc : Int)
    (out err : Str) (hcm : p.check_mode = false) (hn : p.name = some n)
    (hrc : rc ≠ 0) (hm : containsSub ("0042-053".data) err = true) :
    (res_show p (fun _ => (rc, out, err))).1.nim_resource_found =
      some ("0".data) ∧
    (res_show p (fun _ => (rc, out, err))).1.nim_resources = some [] ∧
    (res_show p (fun _ => (rc, out, err))).1.msg =
      "There is no NIM object resource named ".data ++ n ++ " ".data ∧
    (res_show p (fun _ => (rc, out, err))).1.changed = false ∧
    (res_show p (fun _ => (rc, out, err))).1.failed = false ∧
    (res_show p (fun _ => (rc, out, err))).1.rc = none := by
  simp [res_show, hcm, hrc, hm, hn, pyFormatOpt, initResults]

theorem c7_show_not_found_witness :
    ((1 : Int) ≠ 0 ∧
      containsSub ("0042-053".data) ("0042-053 gone".data) = true) ∧
    ((res_show ⟨some ("q".data), none, none, false⟩
        (fun _ => (1, [], "0042-053 gone".data))).1.nim_resource_found =
      some ("0".data) ∧
    (res_show ⟨some ("q".data), none, none, false⟩
        (fun _ => (1, [], "0042-053 gone".data))).1.nim_resources = some [] ∧
    (res_show ⟨some ("q".data), none, none, false⟩
        (fun _ => (1, [], "0042-053 gone".data))).1.msg =
      "There is no NIM object resource named ".data ++ "q".data ++ " ".data ∧
    (res_show ⟨some ("q".data), none, none, false⟩
        (fun _ => (1, [], "0042-053 gone".data))).1.changed = false ∧
    (res_show ⟨some ("q".data), none, none, false⟩
        (fun _ => (1, [], "0042-053 gone".data))).1.failed = false ∧
    (res_show ⟨some ("q".data), none, none, false⟩
        (fun _ => (1, [], "0042-053 gone".data))).1.rc = none) :=
  ⟨⟨by decide, by decide⟩,
   c7_show_not_found ⟨some ("q".data), none, none, false⟩ ("q".data)
     1 [] ("0042-053 gone".data) rfl rfl (by decide) (by decide)⟩

/-- C8: whenever the executed command returns exit code 0, a Show request
yields changed=false while Create and Remove requests yield changed=true. -/
theorem c8_exit_zero_changed (p : ModParams) (out err : Str)
    (hcm : p.check_mode = false) :
    (res_show p (fun _ => (0, out, err))).1.changed = false ∧
    (res_present p (fun _ => (0, out, err))).1.changed = true ∧
    (res_absent p (fun _ => (0, out, err))).1.changed = true := by
  simp [res_show, res_present, res_absent, hcm, initResults]

theorem c8_exit_zero_changed_witness :
    (⟨some ("x".data), none, none, false⟩ : ModParams).check_mode = false ∧
    ((res_show ⟨some ("x".data), none, none, false⟩
        (fun _ => (0, [], []))).1.changed = false ∧
      (res_present ⟨some ("x".data), none, none, false⟩
        (fun _ => (0, [], []))).1.changed = true ∧
      (res_absent ⟨some ("x".data), none, none, false⟩
        (fun _ => (0, [], []))).1.changed = true) :=
  ⟨rfl, c8_exit_zero_changed ⟨some ("x".data), none, none, false⟩ [] [] rfl⟩

end NimResource
